import Mathlib

/- Verification development for the SQL workbench's statement-validation
pipeline (sql_validator.py, query_visualizer.py).  The external tokenizer
(sqlparse) and the storage backend (sqlite3) are modelled abstractly: a
parsed statement is the list of tokens the tokenizer hands back, and the
backend is a record of the deterministic outcomes of the calls one
validation run makes.  Python floats are modelled as rational numbers. -/

set_option linter.unusedVariables false

namespace SqlWb

/-- `s.upper()`: character-wise upper-casing, written over the string's
character list so that it evaluates inside the kernel. -/
def upperStr (s : String) : String := ⟨s.data.map Char.toUpper⟩

/-- `s.lower()` as a character list. -/
def lowerChars (s : String) : List Char := s.data.map Char.toLower

/-- `not s.strip()`: the string contains no non-whitespace character. -/
def isBlank (s : String) : Bool := s.data.all (fun c => c.isWhitespace)

/- A token of a parsed statement as exposed by the external tokenizer.
`keyword` covers tokens whose ttype is exactly Keyword; `dml` covers
tokens whose ttype is DML (SELECT, INSERT, ...), which still pass the
tokenizer's `is_keyword` test but fail an identity test against the
Keyword ttype.  `ident` carries the identifier's real name (alias and
quoting stripped) and its full source text; `identList` is a grouped
comma-separated identifier list whose elements carry (real name, text).
`grp` is any other grouped token (comparison, parenthesis, function) and
`stmt` a nested statement object.  The token sequence of a statement is
the mutually defined `SqlToks` (isomorphic to a list of tokens; kept
mutual so that traversals recursing into nested statements are
structural). -/
mutual
inductive SqlTok where
  | keyword (value : String)
  | dml (value : String)
  | ident (realName : String) (value : String)
  | identList (items : List (String × String))
  | wildcard
  | ws
  | punct (value : String)
  | lit (value : String)
  | grp (toks : SqlToks)
  | stmt (toks : SqlToks)
inductive SqlToks where
  | nil
  | cons (tok : SqlTok) (rest : SqlToks)
end

/-- Build a token sequence from a list literal. -/
def SqlToks.ofList : List SqlTok → SqlToks
  | [] => .nil
  | t :: ts => .cons t (SqlToks.ofList ts)

/-- `not parsed.tokens`: the token sequence is empty. -/
def SqlToks.isEmpty : SqlToks → Bool
  | .nil => true
  | .cons _ _ => false

/-- The tokenizer's `token.is_keyword` test: true for Keyword-ttype and
DML-ttype tokens (the DML ttype is a child of Keyword in the ttype
hierarchy). -/
def SqlTok.isKw : SqlTok → Bool
  | .keyword _ => true
  | .dml _ => true
  | _ => false

/-- `token.ttype is sqlparse.tokens.Keyword`: an identity test, true only
for tokens whose ttype is exactly Keyword, so false for DML tokens. -/
def SqlTok.ttypeIsKeyword : SqlTok → Bool
  | .keyword _ => true
  | _ => false

/-- `token.value.upper()` for the token kinds that carry text; the result
is only consulted under an `is_keyword` guard in the source. -/
def SqlTok.upperValue : SqlTok → String
  | .keyword v => upperStr v
  | .dml v => upperStr v
  | .ident _ v => upperStr v
  | .punct v => upperStr v
  | .lit v => upperStr v
  | _ => ""

/-- Names recorded for one token met inside a FROM/JOIN clause
(sql_validator.py lines 167-175): a single identifier contributes its
real name, an identifier list contributes the real name of each element,
every other token contributes nothing. -/
def SqlTok.recordedNames : SqlTok → List String
  | .ident r _ => [r]
  | .identList items => items.map (fun p => p.1)
  | _ => []

mutual
/-- The `isinstance(token, Statement)` recursion of `_extract_tables`
(lines 180-181): a nested statement contributes its own deduplicated
extraction result, every other token contributes nothing. -/
def extractSub : SqlTok → List String
  | .stmt ts => (extractLoop false ts).dedup
  | _ => []
/-- The loop of `_extract_tables` over `parsed.tokens` (lines 161-181);
`fj` is the `from_or_join_seen` flag.  The first, flattened walk of the
source (lines 142-159) builds a list the function never returns, so it
has no counterpart here; only this grouped walk feeds the result. -/
def extractLoop : Bool → SqlToks → List String
  | _, .nil => []
  | fj, .cons tok rest =>
    if tok.isKw && (tok.upperValue == "FROM" || tok.upperValue == "JOIN") then
      extractSub tok ++ extractLoop true rest
    else if fj then
      let fj2 :=
        if tok.isKw && !(tok.upperValue == "AS" || tok.upperValue == "ON" || tok.upperValue == ",") then
          false
        else fj
      tok.recordedNames ++ extractSub tok ++ extractLoop fj2 rest
    else
      extractSub tok ++ extractLoop fj rest
end

/-- `_extract_tables` (lines 139-183): the grouped token walk followed by
`list(set(...))`, modelled as deduplication. -/
def extract_tables (toks : SqlToks) : List String :=
  (extractLoop false toks).dedup

/-- `previous_row[j] + (c1 != c2)` cost term (line 269). -/
def subCost (c1 c2 : Char) : Nat := if c1 = c2 then 0 else 1

/-- Inner loop of `_levenshtein_distance` (lines 266-270): given the
remaining characters of `s2`, the suffix of the previous row aligned at
the current position, and the entry just appended to the current row,
produce the remaining entries of the current row. -/
def levRowAux (c1 : Char) : List Char → List Nat → Nat → List Nat
  | [], _, _ => []
  | c2 :: v, p0 :: p1 :: prest, cur =>
    let val := min (p1 + 1) (min (cur + 1) (p0 + subCost c1 c2))
    val :: levRowAux c1 v (p1 :: prest) val
  | _ :: _, _, _ => []

/-- Outer loop of `_levenshtein_distance` (lines 264-271): fold each
character of `s1` into a new row; `i` counts the rows already built, and
each new row starts with `i + 1`. -/
def levRows : List Char → List Char → List Nat → Nat → List Nat
  | [], _, prev, _ => prev
  | c1 :: rest, s2, prev, i =>
    levRows rest s2 ((i + 1) :: levRowAux c1 s2 prev (i + 1)) (i + 1)

/-- Lines 262-272 of `_levenshtein_distance`: the empty-`s2` early return
followed by the row dynamic programming, whose answer is the last entry
of the final row (`previous_row[-1]`). -/
def levBody (s1 s2 : List Char) : Nat :=
  if s2.length = 0 then s1.length
  else (levRows s1 s2 (List.range (s2.length + 1)) 0).getLastD 0

/-- `_levenshtein_distance` (lines 260-272).  The single self-call at
line 261 only swaps the arguments and then runs the body, so it is
modelled as a conditional swap in front of the body. -/
def levenshtein_distance (s1 s2 : List Char) : Nat :=
  if s1.length < s2.length then levBody s2 s1 else levBody s1 s2

/-- `_calculate_similarity` (lines 254-258). -/
def calculate_similarity (s1 s2 : List Char) : ℚ :=
  if s1.length = 0 ∨ s2.length = 0 then 0
  else 1 - (levenshtein_distance s1 s2 : ℚ) / (max s1.length s2.length : ℚ)

/-- The default `threshold=0.6` of `_find_similar_names` (line 246). -/
def default_threshold : ℚ := 6 / 10

/-- `_find_similar_names` (lines 246-252): keep, in pool order, every
candidate whose lower-cased similarity to the lower-cased unknown name
reaches the threshold. -/
def find_similar_names (name : String) (name_list : List String) (threshold : ℚ) : List String :=
  name_list.filter (fun n => threshold ≤ calculate_similarity (lowerChars name) (lowerChars n))

/-- Python's `needle in hay` substring test on character lists. -/
def listContainsSub (needle : List Char) : List Char → Bool
  | [] => needle.isEmpty
  | c :: t => needle.isPrefixOf (c :: t) || listContainsSub needle t

/-- `needle in error_msg.lower()` as used by the error classifier; the
needle itself is not lower-cased, matching the source. -/
def lowerContains (hay needle : String) : Bool :=
  listContainsSub needle.data (lowerChars hay)

/-- The generic fallback suggestion list (line 292). -/
def generic_suggestions : List String :=
  ["检查SQL语法", "确保所有引用的表和列都存在", "检查数据类型是否匹配"]

/-- `_generate_suggestions_for_error` (lines 274-293).  The `tables` and
`columns` parameters are accepted but never read by the source; the
classification looks only at the lower-cased message. -/
def generate_suggestions_for_error (error_msg : String) (tables columns : List String) : List String :=
  if lowerContains error_msg "no such table" then
    ["检查表名是否正确拼写", "确保表已经创建"]
  else if lowerContains error_msg "no such column" then
    ["检查列名是否正确拼写", "确保在正确的表中引用列"]
  else if lowerContains error_msg "syntax error" then
    ["检查SQL语法是否正确", "确保关键字拼写正确", "检查括号、逗号等标点符号是否正确"]
  else if lowerContains error_msg "ambiguous" then
    ["使用表名限定列名，例如 \x27table.column\x27"]
  else if lowerContains error_msg "constraint" then
    ["检查是否违反了表的约束条件", "确保插入或更新的数据符合表的约束"]
  else generic_suggestions

/-- Whether some taxonomy category matches the message by substring. -/
def taxonomyMatches (error_msg : String) : Bool :=
  lowerContains error_msg "no such table" || lowerContains error_msg "no such column" ||
    lowerContains error_msg "syntax error" || lowerContains error_msg "ambiguous" ||
    lowerContains error_msg "constraint"

/-- The validator's schema catalog: `self.tables` (table name to ordered
column list) and `self.columns` (column name to owning tables), both
insertion-ordered maps modelled as association lists. -/
structure Catalog where
  tables : List (String × List String)
  columns : List (String × List String)
deriving DecidableEq

def emptyCatalog : Catalog := ⟨[], []⟩

/-- `table in self.tables` key test. -/
def Catalog.hasTable (cat : Catalog) (t : String) : Bool :=
  cat.tables.any (fun p => p.1 == t)

/-- `m[k] = v` on an insertion-ordered map. -/
def setEntry (m : List (String × List String)) (k : String) (v : List String) :
    List (String × List String) :=
  if m.any (fun p => p.1 == k) then
    m.map (fun p => if p.1 == k then (k, v) else p)
  else m ++ [(k, v)]

/-- Append `v` to the list stored at `k`, creating the entry if absent:
the `if k not in m: m[k] = []` followed by `m[k].append(v)` idiom. -/
def appendEntry (m : List (String × List String)) (k v : String) :
    List (String × List String) :=
  if m.any (fun p => p.1 == k) then
    m.map (fun p => if p.1 == k then (p.1, p.2 ++ [v]) else p)
  else m ++ [(k, [v])]

/-- The storage backend, modelled as the deterministic outcomes of the
calls one validation run makes: whether connecting succeeds, the result
of the table-list query (`none` means the query raises), the per-table
column query (`none` means it raises), and the `EXPLAIN` probe of the
parsed statement (`none` means success, `some e` an error of message `e`). -/
structure Backend where
  connectOk : Bool
  listTables : Option (List String)
  tableInfo : String → Option (List String)
  explain : SqlToks → Option String

/-- The per-table loop of `_load_schema` (lines 50-63), continuing from
the catalog state accumulated so far.  `self.tables[table_name] = []`
runs before the column query, so a failing column query leaves that empty
entry behind and aborts with the partial state. -/
def loadSchemaLoop (be : Backend) : List String → Catalog → Bool × Catalog
  | [], acc => (true, acc)
  | t :: ts, acc =>
    let acc1 : Catalog := { acc with tables := setEntry acc.tables t [] }
    match be.tableInfo t with
    | none => (false, acc1)
    | some cols =>
      let acc2 := cols.foldl
        (fun a c => ⟨appendEntry a.tables t c, appendEntry a.columns c t⟩) acc1
      loadSchemaLoop be ts acc2

/-- `_load_schema` (lines 38-71).  On connection failure or a failing
table-list query the catalog is untouched; once the table list is in
hand, both maps are cleared (lines 47-48) and rebuilt in place. -/
def load_schema (be : Backend) (cat : Catalog) : Bool × Catalog :=
  if be.connectOk then
    match be.listTables with
    | none => (false, cat)
    | some ts => loadSchemaLoop be ts emptyCatalog
  else (false, cat)

/-- `_check_basic_syntax` (lines 122-137): parenthesis balance on the raw
text, then the first parsed statement must exist (an out-of-range index
raises and is caught, yielding False) and have a non-empty token list.
The SELECT/FROM keyword inspection of lines 130-134 only reaches `pass`,
so it cannot change the result. -/
def basic_syntax_check (sql_query : String) (parsed_statements : List SqlToks) : Bool :=
  if sql_query.data.count '(' ≠ sql_query.data.count ')' then false
  else
    match parsed_statements with
    | [] => false
    | toks :: _ => !toks.isEmpty

/-- The triple returned by `SQLValidator.validate`. -/
structure ValidateResult where
  isValid : Bool
  message : Option String
  suggestions : Option (List String)
deriving DecidableEq

def conn_failed_msg : String := "数据库连接失败，无法验证。"
def empty_query_msg : String := "SQL查询不能为空。"
def empty_query_suggestion : String := "请输入有效的SQL查询。"
def syntax_error_msg : String := "SQL语法错误"
def syntax_error_suggestions : List String :=
  ["检查SQL语法是否正确", "确保关键字拼写正确", "检查括号是否匹配"]
def cannot_parse_msg : String := "无法解析SQL查询。"
def cannot_parse_suggestion : String := "请检查查询格式。"
def multi_statement_msg : String := "只允许验证单个SQL语句。"
def multi_statement_suggestion : String := "请将查询拆分为多个独立的语句进行验证。"

/-- `SQLValidator.validate` (lines 73-120).  The external parse of the
raw text is supplied as `parsed_statements`; the result is the returned
triple together with the catalog state after the in-place schema refresh
of line 82.  The connection outcome is deterministic within one run, so
the re-connection test of line 85 repeats the test of line 79. -/
def validate (be : Backend) (cat : Catalog) (sql_query : String)
    (parsed_statements : List SqlToks) : ValidateResult × Catalog :=
  if !be.connectOk then (⟨false, some conn_failed_msg, some []⟩, cat)
  else
    let cat1 := (load_schema be cat).2
    if !be.connectOk then (⟨false, some conn_failed_msg, some []⟩, cat1)
    else if isBlank sql_query then
      (⟨false, some empty_query_msg, some [empty_query_suggestion]⟩, cat1)
    else if !basic_syntax_check sql_query parsed_statements then
      (⟨false, some syntax_error_msg, some syntax_error_suggestions⟩, cat1)
    else
      match parsed_statements with
      | [] => (⟨false, some cannot_parse_msg, some [cannot_parse_suggestion]⟩, cat1)
      | parsed :: rest =>
        if rest.length > 0 then
          (⟨false, some multi_statement_msg, some [multi_statement_suggestion]⟩, cat1)
        else
          let tables_in_query := extract_tables parsed
          let invalid_tables := tables_in_query.filter (fun t => !cat1.hasTable t)
          match be.explain parsed with
          | none => (⟨true, none, none⟩, cat1)
          | some error_msg =>
            (⟨false, some error_msg,
              some (generate_suggestions_for_error error_msg tables_in_query [])⟩, cat1)

/-- One plan step produced by the Plan Builder. -/
structure PlanNode where
  id : Int
  parent : Int
  operation : String
deriving DecidableEq

/-- The keyword branch of one iteration of `_parse_sql_manually`'s loop
(query_visualizer.py lines 137-144).  `token.ttype is Keyword` is an
identity test, so DML tokens (in particular SELECT) never enter this
branch; a Keyword-ttype SELECT would append the root node with parent
`-1`, a FROM sets the `from_seen` flag. -/
def planStep (tok : SqlTok) (select_seen from_seen : Bool) (plan : List PlanNode) :
    Bool × Bool × List PlanNode :=
  match tok with
  | SqlTok.keyword v =>
    if upperStr v == "SELECT" then
      (true, from_seen, plan ++ [PlanNode.mk (plan.length : Int) (-1) "SELECT"])
    else if upperStr v == "FROM" then (select_seen, true, plan)
    else (select_seen, from_seen, plan)
  | _ => (select_seen, from_seen, plan)

/-- The identifier branch of the same iteration (lines 145-147): an
identifier met while `from_seen` holds appends a SCAN TABLE node whose
parent is hard-coded `0`. -/
def planScan (tok : SqlTok) (from_seen : Bool) (plan : List PlanNode) : List PlanNode :=
  match tok with
  | SqlTok.ident _ value =>
    if from_seen then
      plan ++ [PlanNode.mk (plan.length : Int) 0 ("SCAN TABLE " ++ value)]
    else plan
  | _ => plan

/-- The token loop of `_parse_sql_manually` (lines 131-147): the keyword
branch runs first, then the identifier branch sees the updated flags. -/
def planLoop : SqlToks → Bool → Bool → List PlanNode → List PlanNode
  | .nil, _, _, plan => plan
  | .cons tok rest, select_seen, from_seen, plan =>
    let step := planStep tok select_seen from_seen plan
    planLoop rest step.1 step.2.1 (planScan tok step.2.1 step.2.2)

/-- `_parse_sql_manually` (lines 128-150), including the two-node default
plan emitted when the loop produced nothing. -/
def parse_sql_manually (toks : SqlToks) : List PlanNode :=
  let plan := planLoop toks false false []
  if plan.isEmpty then
    [⟨0, -1, "QUERY ROOT"⟩, ⟨1, 0, "EXECUTE SQL"⟩]
  else plan

/-- Parent validity as claimed for plans: every node whose parent is not
the root marker `-1` refers to the id of a node strictly earlier in the
sequence. -/
def parentsValidFrom : List PlanNode → List Int → Bool
  | [], _ => true
  | n :: rest, seen =>
    (n.parent == -1 || seen.contains n.parent) && parentsValidFrom rest (seen ++ [n.id])

def planWellFormed (plan : List PlanNode) : Bool :=
  !plan.isEmpty && parentsValidFrom plan []

/-- Follows the spec's words (§4.5 step 6 with §7): on backend failure
the suggestions are the taxonomy classification of the message combined
with Fuzzy Suggestion Engine output seeded from the invalid tables,
matched against the catalog's table names at the default threshold. -/
def spec_backend_failure_suggestions (error_msg : String)
    (invalid_tables catalog_tables : List String) : List String :=
  generate_suggestions_for_error error_msg [] [] ++
    invalid_tables.flatMap (fun t => find_similar_names t catalog_tables default_threshold)

/-- Reference definition of unit-cost edit distance, by the textbook
recursion; used to state what `_levenshtein_distance` computes. -/
def levRec : List Char → List Char → Nat
  | [], ys => ys.length
  | x :: xs, [] => (x :: xs).length
  | x :: xs, y :: ys =>
    min (levRec xs (y :: ys) + 1)
      (min (levRec (x :: xs) ys + 1) (levRec xs ys + subCost x y))
termination_by a b => a.length + b.length

/-- `EditSeq a b n` holds when `a` can be transformed into `b` by a
sequence of single-character edits of total cost `n`: matched characters
are kept for free, and each substitution, deletion or insertion costs 1. -/
inductive EditSeq : List Char → List Char → Nat → Prop where
  | nil : EditSeq [] [] 0
  | keep (c : Char) {xs ys : List Char} {n : Nat} :
      EditSeq xs ys n → EditSeq (c :: xs) (c :: ys) n
  | subst (c d : Char) {xs ys : List Char} {n : Nat} :
      EditSeq xs ys n → EditSeq (c :: xs) (d :: ys) (n + 1)
  | del (c : Char) {xs ys : List Char} {n : Nat} :
      EditSeq xs ys n → EditSeq (c :: xs) ys (n + 1)
  | ins (d : Char) {xs ys : List Char} {n : Nat} :
      EditSeq xs ys n → EditSeq xs (d :: ys) (n + 1)

/- Concrete inputs used by witnesses and counterexamples. -/

/-- Tokens of `SELECT * FROM A JOIN B ON A.id = B.id` as the tokenizer
groups them (the comparison is a group that is neither an identifier nor
a nested statement). -/
def joinToks : SqlToks := SqlToks.ofList
  [SqlTok.dml "SELECT", SqlTok.ws, SqlTok.wildcard, SqlTok.ws, SqlTok.keyword "FROM",
   SqlTok.ws, SqlTok.ident "A" "A", SqlTok.ws, SqlTok.keyword "JOIN", SqlTok.ws,
   SqlTok.ident "B" "B", SqlTok.ws, SqlTok.keyword "ON", SqlTok.ws,
   SqlTok.grp (SqlToks.ofList
     [SqlTok.ident "id" "A.id", SqlTok.ws, SqlTok.punct "=", SqlTok.ws,
      SqlTok.ident "id" "B.id"])]

/-- Tokens of the self-join `SELECT * FROM A a1 JOIN A a2`: both
identifiers carry the real name `A` under different aliases. -/
def selfJoinToks : SqlToks := SqlToks.ofList
  [SqlTok.dml "SELECT", SqlTok.ws, SqlTok.wildcard, SqlTok.ws, SqlTok.keyword "FROM",
   SqlTok.ws, SqlTok.ident "A" "A a1", SqlTok.ws, SqlTok.keyword "JOIN", SqlTok.ws,
   SqlTok.ident "A" "A a2"]

/-- Tokens of `SELECT * FROM t`: SELECT carries the DML ttype, FROM the
plain Keyword ttype, and the table name is a grouped identifier. -/
def selectFromTToks : SqlToks := SqlToks.ofList
  [SqlTok.dml "SELECT", SqlTok.ws, SqlTok.wildcard, SqlTok.ws, SqlTok.keyword "FROM",
   SqlTok.ws, SqlTok.ident "t" "t"]

/-- Tokens of `SELECT * FROM Student`. -/
def selectStudentToks : SqlToks := SqlToks.ofList
  [SqlTok.dml "SELECT", SqlTok.ws, SqlTok.wildcard, SqlTok.ws, SqlTok.keyword "FROM",
   SqlTok.ws, SqlTok.ident "Student" "Student"]

/-- Tokens of `SELECT * FROM Studnet` (misspelt table). -/
def selectStudnetToks : SqlToks := SqlToks.ofList
  [SqlTok.dml "SELECT", SqlTok.ws, SqlTok.wildcard, SqlTok.ws, SqlTok.keyword "FROM",
   SqlTok.ws, SqlTok.ident "Studnet" "Studnet"]

/-- Tokens of the first statement of `SELECT 1; SELECT (2`. -/
def multiStmt1Toks : SqlToks := SqlToks.ofList
  [SqlTok.dml "SELECT", SqlTok.ws, SqlTok.lit "1", SqlTok.punct ";"]

/-- Tokens of the second statement of `SELECT 1; SELECT (2` (unbalanced
parenthesis). -/
def multiStmt2Toks : SqlToks := SqlToks.ofList
  [SqlTok.ws, SqlTok.dml "SELECT", SqlTok.ws, SqlTok.punct "(", SqlTok.lit "2"]

/-- Tokens of the first statement of `SELECT 1; SELECT 2`. -/
def twoSelect1Toks : SqlToks := SqlToks.ofList
  [SqlTok.dml "SELECT", SqlTok.ws, SqlTok.lit "1", SqlTok.punct ";"]

/-- Tokens of the second statement of `SELECT 1; SELECT 2`. -/
def twoSelect2Toks : SqlToks := SqlToks.ofList
  [SqlTok.ws, SqlTok.dml "SELECT", SqlTok.ws, SqlTok.lit "2"]

/-- A healthy backend over a one-table schema `Student(Sno)` whose
explain probe accepts every statement. -/
def okBackend : Backend :=
  ⟨true, some ["Student"], fun _ => some ["Sno"], fun _ => none⟩

/-- A backend whose connection fails. -/
def downBackend : Backend :=
  ⟨false, some [], fun _ => none, fun _ => none⟩

/-- A backend over the schema `Student(Sno)` whose explain probe rejects
every statement with a missing-table message naming `Studnet`. -/
def rejectBackend : Backend :=
  ⟨true, some ["Student"], fun _ => some ["Sno"],
   fun _ => some "no such table: Studnet"⟩

/-- A backend whose table-list query returns `A` and `B` but whose
column query fails on `B`: the refresh dies halfway through the rebuild. -/
def halfBackend : Backend :=
  ⟨true, some ["A", "B"], fun t => if t == "A" then some ["c"] else none, fun _ => none⟩

/-- A catalog holding one table `X(a)`, the state before a refresh. -/
def oldCatalog : Catalog := ⟨[("X", ["a"])], [("a", ["X"])]⟩

/- Edit-distance theory: the reference recursion `levRec` is the least
cost of an edit sequence, and the row dynamic programming of the source
computes `levRec`. -/

lemma levRec_nil_left (ys : List Char) : levRec [] ys = ys.length := by
  simp [levRec]

lemma levRec_nil_right (xs : List Char) : levRec xs [] = xs.length := by
  cases xs <;> simp [levRec]

lemma levRec_cons_cons (x y : Char) (xs ys : List Char) :
    levRec (x :: xs) (y :: ys) =
      min (levRec xs (y :: ys) + 1)
        (min (levRec (x :: xs) ys + 1) (levRec xs ys + subCost x y)) := by
  simp [levRec]

lemma subCost_le_one (x y : Char) : subCost x y ≤ 1 := by
  unfold subCost; split <;> omega

lemma subCost_self (x : Char) : subCost x x = 0 := by
  simp [subCost]

lemma editSeq_nil_left : ∀ ys : List Char, EditSeq [] ys ys.length := by
  intro ys
  induction ys with
  | nil => exact EditSeq.nil
  | cons y ys ih => exact EditSeq.ins y ih

lemma editSeq_nil_right : ∀ xs : List Char, EditSeq xs [] xs.length := by
  intro xs
  induction xs with
  | nil => exact EditSeq.nil
  | cons x xs ih => exact EditSeq.del x ih

lemma editSeq_levRec : ∀ xs ys : List Char, EditSeq xs ys (levRec xs ys) := by
  intro xs ys
  induction xs, ys using levRec.induct with
  | case1 ys =>
    rw [levRec_nil_left]; exact editSeq_nil_left ys
  | case2 x xs =>
    rw [levRec_nil_right]; exact editSeq_nil_right (x :: xs)
  | case3 x xs y ys ih1 ih2 ih3 =>
    have hA : EditSeq (x :: xs) (y :: ys) (levRec xs (y :: ys) + 1) := EditSeq.del x ih1
    have hB : EditSeq (x :: xs) (y :: ys) (levRec (x :: xs) ys + 1) := EditSeq.ins y ih2
    have hC : EditSeq (x :: xs) (y :: ys) (levRec xs ys + subCost x y) := by
      by_cases h : x = y
      · subst h; rw [subCost_self]; exact EditSeq.keep x ih3
      · simp only [subCost, if_neg h]; exact EditSeq.subst x y ih3
    rw [levRec_cons_cons]
    rcases min_choice (levRec xs (y :: ys) + 1)
        (min (levRec (x :: xs) ys + 1) (levRec xs ys + subCost x y)) with h | h
    · rw [h]; exact hA
    · rw [h]
      rcases min_choice (levRec (x :: xs) ys + 1) (levRec xs ys + subCost x y) with h2 | h2
      · rw [h2]; exact hB
      · rw [h2]; exact hC

lemma levRec_le_editSeq : ∀ {xs ys : List Char} {n : Nat},
    EditSeq xs ys n → levRec xs ys ≤ n := by
  intro xs ys n h
  induction h with
  | nil => simp [levRec_nil_left]
  | keep c h ih =>
    rw [levRec_cons_cons]
    refine le_trans (le_trans (min_le_right _ _) (min_le_right _ _)) ?_
    rw [subCost_self]; omega
  | subst c d h ih =>
    rw [levRec_cons_cons]
    refine le_trans (le_trans (min_le_right _ _) (min_le_right _ _)) ?_
    have := subCost_le_one c d
    omega
  | del c h ih =>
    rename_i xs' ys' n'
    cases ys' with
    | nil => rw [levRec_nil_right] at ih ⊢; simpa using Nat.succ_le_succ ih
    | cons y ys'' =>
      rw [levRec_cons_cons]
      refine le_trans (min_le_left _ _) ?_
      omega
  | ins d h ih =>
    rename_i xs' ys' n'
    cases xs' with
    | nil => rw [levRec_nil_left] at ih ⊢; simpa using Nat.succ_le_succ ih
    | cons x xs'' =>
      rw [levRec_cons_cons]
      refine le_trans (le_trans (min_le_right _ _) (min_le_left _ _)) ?_
      omega

lemma EditSeq.symm : ∀ {xs ys : List Char} {n : Nat},
    EditSeq xs ys n → EditSeq ys xs n := by
  intro xs ys n h
  induction h with
  | nil => exact EditSeq.nil
  | keep c _ ih => exact EditSeq.keep c ih
  | subst c d _ ih => exact EditSeq.subst d c ih
  | del c _ ih => exact EditSeq.ins c ih
  | ins d _ ih => exact EditSeq.del d ih

lemma levRec_symm (xs ys : List Char) : levRec xs ys = levRec ys xs :=
  le_antisymm (levRec_le_editSeq (editSeq_levRec ys xs).symm)
    (levRec_le_editSeq (editSeq_levRec xs ys).symm)

lemma EditSeq.keep_snoc (c : Char) : ∀ {xs ys : List Char} {n : Nat},
    EditSeq xs ys n → EditSeq (xs ++ [c]) (ys ++ [c]) n := by
  intro xs ys n h
  induction h with
  | nil => exact EditSeq.keep c EditSeq.nil
  | keep a _ ih => exact EditSeq.keep a ih
  | subst a b _ ih => exact EditSeq.subst a b ih
  | del a _ ih => exact EditSeq.del a ih
  | ins b _ ih => exact EditSeq.ins b ih

lemma EditSeq.subst_snoc (c d : Char) : ∀ {xs ys : List Char} {n : Nat},
    EditSeq xs ys n → EditSeq (xs ++ [c]) (ys ++ [d]) (n + 1) := by
  intro xs ys n h
  induction h with
  | nil => exact EditSeq.subst c d EditSeq.nil
  | keep a _ ih => exact EditSeq.keep a ih
  | subst a b _ ih => exact EditSeq.subst a b ih
  | del a _ ih => exact EditSeq.del a ih
  | ins b _ ih => exact EditSeq.ins b ih

lemma EditSeq.del_snoc (c : Char) : ∀ {xs ys : List Char} {n : Nat},
    EditSeq xs ys n → EditSeq (xs ++ [c]) ys (n + 1) := by
  intro xs ys n h
  induction h with
  | nil => exact EditSeq.del c EditSeq.nil
  | keep a _ ih => exact EditSeq.keep a ih
  | subst a b _ ih => exact EditSeq.subst a b ih
  | del a _ ih => exact EditSeq.del a ih
  | ins b _ ih => exact EditSeq.ins b ih

lemma EditSeq.ins_snoc (d : Char) : ∀ {xs ys : List Char} {n : Nat},
    EditSeq xs ys n → EditSeq xs (ys ++ [d]) (n + 1) := by
  intro xs ys n h
  induction h with
  | nil => exact EditSeq.ins d EditSeq.nil
  | keep a _ ih => exact EditSeq.keep a ih
  | subst a b _ ih => exact EditSeq.subst a b ih
  | del a _ ih => exact EditSeq.del a ih
  | ins b _ ih => exact EditSeq.ins b ih

lemma EditSeq.rev : ∀ {xs ys : List Char} {n : Nat},
    EditSeq xs ys n → EditSeq xs.reverse ys.reverse n := by
  intro xs ys n h
  induction h with
  | nil => exact EditSeq.nil
  | keep a _ ih => simpa using ih.keep_snoc a
  | subst a b _ ih => simpa using ih.subst_snoc a b
  | del a _ ih => simpa using ih.del_snoc a
  | ins b _ ih => simpa using ih.ins_snoc b

lemma levRec_reverse (xs ys : List Char) :
    levRec xs.reverse ys.reverse = levRec xs ys := by
  refine le_antisymm (levRec_le_editSeq (editSeq_levRec xs ys).rev) ?_
  have h := levRec_le_editSeq (editSeq_levRec xs.reverse ys.reverse).rev
  simpa using h

lemma levRec_snoc_snoc (t u : List Char) (x y : Char) :
    levRec (t ++ [x]) (u ++ [y]) =
      min (levRec t (u ++ [y]) + 1)
        (min (levRec (t ++ [x]) u + 1) (levRec t u + subCost x y)) := by
  have h : levRec (t ++ [x]) (u ++ [y]) = levRec (x :: t.reverse) (y :: u.reverse) := by
    rw [show x :: t.reverse = (t ++ [x]).reverse by simp,
      show y :: u.reverse = (u ++ [y]).reverse by simp, levRec_reverse]
  rw [h, levRec_cons_cons]
  rw [show y :: u.reverse = (u ++ [y]).reverse by simp,
    show x :: t.reverse = (t ++ [x]).reverse by simp]
  rw [levRec_reverse, levRec_reverse, levRec_reverse]

lemma map_range_succ (f : Nat → Nat) (n : Nat) :
    (List.range (n + 1)).map f = f 0 :: (List.range n).map (fun k => f (k + 1)) := by
  rw [List.range_succ_eq_map, List.map_cons, List.map_map]
  rfl

lemma levRowAux_spec (c1 : Char) (t : List Char) :
    ∀ (v u : List Char),
      levRowAux c1 v
          ((List.range (v.length + 1)).map (fun k => levRec t (u ++ v.take k)))
          (levRec (t ++ [c1]) u)
        = (List.range v.length).map (fun k => levRec (t ++ [c1]) (u ++ v.take (k + 1))) := by
  intro v
  induction v with
  | nil => intro u; simp [levRowAux]
  | cons c2 v' ih =>
    intro u
    rw [show (c2 :: v').length + 1 = v'.length + 1 + 1 by simp]
    rw [map_range_succ, map_range_succ]
    simp only [List.take_zero, List.take_succ_cons, List.append_nil]
    rw [levRowAux]
    have hval : min (levRec t (u ++ [c2]) + 1)
        (min (levRec (t ++ [c1]) u + 1) (levRec t u + subCost c1 c2))
        = levRec (t ++ [c1]) (u ++ [c2]) := (levRec_snoc_snoc t u c1 c2).symm
    rw [hval]
    have hih := ih (u ++ [c2])
    rw [map_range_succ] at hih
    simp only [List.take_zero, List.take_succ_cons, List.append_nil, List.append_assoc,
      List.singleton_append] at hih ⊢
    rw [show (c2 :: v').length = v'.length + 1 from by simp, map_range_succ]
    simp only [List.take_zero, List.take_succ_cons, List.append_nil]
    rw [hih]

lemma levRows_spec (s2 : List Char) :
    ∀ (s1 t : List Char),
      levRows s1 s2 ((List.range (s2.length + 1)).map (fun j => levRec t (s2.take j))) t.length
        = (List.range (s2.length + 1)).map (fun j => levRec (t ++ s1) (s2.take j)) := by
  intro s1
  induction s1 with
  | nil => intro t; simp [levRows]
  | cons c1 rest ih =>
    intro t
    rw [levRows]
    have h0 : levRec (t ++ [c1]) [] = t.length + 1 := by
      rw [levRec_nil_right]; simp
    have hrow : (t.length + 1) :: levRowAux c1 s2
          ((List.range (s2.length + 1)).map (fun j => levRec t (s2.take j))) (t.length + 1)
        = (List.range (s2.length + 1)).map (fun j => levRec (t ++ [c1]) (s2.take j)) := by
      have haux := levRowAux_spec c1 t s2 []
      simp only [List.nil_append] at haux
      rw [← h0, haux, map_range_succ]
      simp only [List.take_zero]
    rw [hrow]
    have hlen : t.length + 1 = (t ++ [c1]).length := by simp
    rw [hlen, ih (t ++ [c1])]
    simp only [List.append_assoc, List.singleton_append]

lemma getLastD_map_range (f : Nat → Nat) (n : Nat) :
    ((List.range (n + 1)).map f).getLastD 0 = f n := by
  rw [List.range_succ, List.map_append]
  simp

lemma levBody_eq (s1 s2 : List Char) : levBody s1 s2 = levRec s1 s2 := by
  rw [levBody]
  split
  · next h =>
    have : s2 = [] := List.length_eq_zero.mp h
    subst this
    rw [levRec_nil_right]
  · next h =>
    have hprev : (List.range (s2.length + 1)).map (fun j => levRec [] (s2.take j))
        = List.range (s2.length + 1) := by
      have hpt : ∀ j ∈ List.range (s2.length + 1), levRec [] (s2.take j) = id j := by
        intro j hj
        rw [levRec_nil_left, List.length_take]
        simp only [List.mem_range] at hj
        simp only [id]
        omega
      rw [List.map_congr_left hpt, List.map_id]
    have hrows := levRows_spec s2 s1 []
    simp only [List.length_nil, List.nil_append] at hrows
    rw [← hprev, hrows, getLastD_map_range, List.take_length]

lemma levenshtein_distance_eq (s1 s2 : List Char) :
    levenshtein_distance s1 s2 = levRec s1 s2 := by
  rw [levenshtein_distance]
  split
  · rw [levBody_eq, levRec_symm]
  · rw [levBody_eq]

lemma editSeq_self : ∀ s : List Char, EditSeq s s 0 := by
  intro s
  induction s with
  | nil => exact EditSeq.nil
  | cons c s ih => exact EditSeq.keep c ih

lemma levRec_self (s : List Char) : levRec s s = 0 :=
  Nat.le_zero.mp (levRec_le_editSeq (editSeq_self s))

lemma levRec_le_max : ∀ xs ys : List Char, levRec xs ys ≤ max xs.length ys.length := by
  intro xs ys
  induction xs, ys using levRec.induct with
  | case1 ys => rw [levRec_nil_left]; simp
  | case2 x xs => rw [levRec_nil_right]; simp
  | case3 x xs y ys ih1 ih2 ih3 =>
    rw [levRec_cons_cons]
    refine le_trans (le_trans (min_le_right _ _) (min_le_right _ _)) ?_
    have hc := subCost_le_one x y
    simp only [List.length_cons]
    omega

lemma calculate_similarity_nonneg (a b : List Char) : 0 ≤ calculate_similarity a b := by
  rw [calculate_similarity]
  split
  · exact le_refl 0
  · next h =>
    push_neg at h
    obtain ⟨ha, hb⟩ := h
    have hmaxnat : 0 < max a.length b.length := by omega
    have hmax : 0 < (max a.length b.length : ℚ) := by exact_mod_cast hmaxnat
    have hlenat : levenshtein_distance a b ≤ max a.length b.length := by
      rw [levenshtein_distance_eq]; exact levRec_le_max a b
    have hle : (levenshtein_distance a b : ℚ) ≤ (max a.length b.length : ℚ) := by
      exact_mod_cast hlenat
    have hdiv : (levenshtein_distance a b : ℚ) / (max a.length b.length : ℚ) ≤ 1 :=
      (div_le_one hmax).mpr hle
    linarith

lemma calculate_similarity_le_one (a b : List Char) : calculate_similarity a b ≤ 1 := by
  rw [calculate_similarity]
  split
  · norm_num
  · next h =>
    push_neg at h
    obtain ⟨ha, hb⟩ := h
    have hmaxnat : 0 < max a.length b.length := by omega
    have hmax : 0 < (max a.length b.length : ℚ) := by exact_mod_cast hmaxnat
    have hnum : (0 : ℚ) ≤ (levenshtein_distance a b : ℚ) := by positivity
    have hdiv : (0 : ℚ) ≤ (levenshtein_distance a b : ℚ) / (max a.length b.length : ℚ) :=
      div_nonneg hnum (le_of_lt hmax)
    linarith

lemma calculate_similarity_self (s : List Char) (h : s ≠ []) :
    calculate_similarity s s = 1 := by
  have hlen : s.length ≠ 0 := by
    simpa using List.length_pos.mpr h |>.ne'
  rw [calculate_similarity, if_neg (by simp [hlen])]
  rw [levenshtein_distance_eq, levRec_self]
  simp

/-- The similarity of the lower-cased `Studnet` and `Student` is 5/7:
their edit distance is 2 over length 7. -/
lemma studnet_student_sim :
    calculate_similarity (lowerChars "Studnet") (lowerChars "Student") = 5 / 7 := by
  have hd : levenshtein_distance (lowerChars "Studnet") (lowerChars "Student") = 2 := by rfl
  have h1 : (lowerChars "Studnet").length = 7 := by rfl
  have h2 : (lowerChars "Student").length = 7 := by rfl
  rw [calculate_similarity, h1, h2, hd]
  norm_num

/-- C7: `_calculate_similarity` equals `1 - levenshtein/max(len)` on
non-empty inputs and is exactly `0` when either input is empty; it always
lies in `[0, 1]`; `_levenshtein_distance` computes the least cost of
transforming one string into the other by unit-cost single-character
insertions, deletions and substitutions; and every non-empty string has
similarity `1` to itself. -/
theorem C7_similarity_levenshtein :
    (∀ a b : List Char, a ≠ [] → b ≠ [] →
      calculate_similarity a b
        = 1 - (levenshtein_distance a b : ℚ) / (max a.length b.length : ℚ))
    ∧ (∀ a b : List Char, a = [] ∨ b = [] → calculate_similarity a b = 0)
    ∧ (∀ a b : List Char, 0 ≤ calculate_similarity a b ∧ calculate_similarity a b ≤ 1)
    ∧ (∀ a b : List Char, IsLeast {n : Nat | EditSeq a b n} (levenshtein_distance a b))
    ∧ (∀ s : List Char, s ≠ [] → calculate_similarity s s = 1) := by
  refine ⟨?_, ?_, ?_, ?_, ?_⟩
  · intro a b ha hb
    have ha' : a.length ≠ 0 := by simpa using List.length_pos.mpr ha |>.ne'
    have hb' : b.length ≠ 0 := by simpa using List.length_pos.mpr hb |>.ne'
    rw [calculate_similarity, if_neg (by simp [ha', hb'])]
  · intro a b h
    rcases h with h | h <;> subst h <;> simp [calculate_similarity]
  · intro a b
    exact ⟨calculate_similarity_nonneg a b, calculate_similarity_le_one a b⟩
  · intro a b
    constructor
    · show EditSeq a b (levenshtein_distance a b)
      rw [levenshtein_distance_eq]
      exact editSeq_levRec a b
    · intro n hn
      rw [levenshtein_distance_eq]
      exact levRec_le_editSeq hn
  · exact calculate_similarity_self

/-- Witness for C7 at concrete inputs. -/
theorem C7_similarity_levenshtein_witness :
    calculate_similarity ['a', 'b'] ['a', 'c']
      = 1 - (levenshtein_distance ['a', 'b'] ['a', 'c'] : ℚ)
          / (max (['a', 'b'] : List Char).length (['a', 'c'] : List Char).length : ℚ)
    ∧ calculate_similarity [] ['a'] = 0
    ∧ calculate_similarity ['x'] ['x'] = 1 := by
  refine ⟨?_, ?_, ?_⟩
  · exact C7_similarity_levenshtein.1 ['a', 'b'] ['a', 'c'] (by simp) (by simp)
  · exact C7_similarity_levenshtein.2.1 [] ['a'] (Or.inl rfl)
  · exact C7_similarity_levenshtein.2.2.2.2 ['x'] (by simp)

/-- C8: `_find_similar_names` keeps exactly the candidates whose
case-insensitive similarity to the unknown name reaches the threshold,
in candidate-pool order (the result is a sublist of the pool); and on
the pool {Student, Teacher} the misspelt `Studnet` yields `Student` at
the default threshold 0.6. -/
theorem C8_find_similar_names :
    (∀ (name : String) (pool : List String) (θ : ℚ) (c : String),
      c ∈ find_similar_names name pool θ ↔
        c ∈ pool ∧ θ ≤ calculate_similarity (lowerChars name) (lowerChars c))
    ∧ (∀ (name : String) (pool : List String) (θ : ℚ),
      (find_similar_names name pool θ).Sublist pool)
    ∧ "Student" ∈ find_similar_names "Studnet" ["Student", "Teacher"] default_threshold := by
  refine ⟨?_, ?_, ?_⟩
  · intro name pool θ c
    rw [find_similar_names]
    simp [List.mem_filter]
  · intro name pool θ
    rw [find_similar_names]
    exact List.filter_sublist pool
  · rw [find_similar_names]
    rw [List.mem_filter]
    refine ⟨by simp, ?_⟩
    rw [decide_eq_true_eq, studnet_student_sim, default_threshold]
    norm_num

/-- C9: on `SELECT * FROM A JOIN B ON A.id = B.id` the Reference
Extractor returns exactly the reference set {A, B}; and in general its
result never repeats a table name, even when the same table occurs
several times in the statement. -/
theorem C9_extract_tables :
    (∀ s : String, s ∈ extract_tables joinToks ↔ s = "A" ∨ s = "B")
    ∧ (∀ toks : SqlToks, (extract_tables toks).Nodup)
    ∧ extract_tables selfJoinToks = ["A"] := by
  refine ⟨?_, ?_, by rfl⟩
  · have h : extract_tables joinToks = ["A", "B"] := by rfl
    intro s
    rw [h]
    simp
  · intro toks
    exact List.nodup_dedup _

/-- Every node appended by the Plan Builder fallback loop carries parent
`-1` (the SELECT root case) or `0` (the SCAN TABLE case), so the
property propagates from the accumulator to the result. -/
lemma planStep_parents (tok : SqlTok) (ss fs : Bool) (plan : List PlanNode)
    (h : ∀ n ∈ plan, n.parent = -1 ∨ n.parent = 0) :
    ∀ n ∈ (planStep tok ss fs plan).2.2, n.parent = -1 ∨ n.parent = 0 := by
  intro n hn
  cases tok with
  | keyword v =>
    simp only [planStep] at hn
    split_ifs at hn
    · simp only [List.mem_append, List.mem_singleton] at hn
      rcases hn with hn | rfl
      · exact h n hn
      · left; rfl
    · exact h n hn
    · exact h n hn
  | dml v => exact h n hn
  | ident r v => exact h n hn
  | identList items => exact h n hn
  | wildcard => exact h n hn
  | ws => exact h n hn
  | punct v => exact h n hn
  | lit v => exact h n hn
  | grp g => exact h n hn
  | stmt g => exact h n hn

lemma planScan_parents (tok : SqlTok) (fs : Bool) (plan : List PlanNode)
    (h : ∀ n ∈ plan, n.parent = -1 ∨ n.parent = 0) :
    ∀ n ∈ planScan tok fs plan, n.parent = -1 ∨ n.parent = 0 := by
  intro n hn
  cases tok with
  | ident r v =>
    simp only [planScan] at hn
    split_ifs at hn
    · simp only [List.mem_append, List.mem_singleton] at hn
      rcases hn with hn | rfl
      · exact h n hn
      · right; rfl
    · exact h n hn
  | keyword v => exact h n hn
  | dml v => exact h n hn
  | identList items => exact h n hn
  | wildcard => exact h n hn
  | ws => exact h n hn
  | punct v => exact h n hn
  | lit v => exact h n hn
  | grp g => exact h n hn
  | stmt g => exact h n hn

lemma planLoop_parents : ∀ (toks : SqlToks) (ss fs : Bool) (plan : List PlanNode),
    (∀ n ∈ plan, n.parent = -1 ∨ n.parent = 0) →
    ∀ n ∈ planLoop toks ss fs plan, n.parent = -1 ∨ n.parent = 0
  | .nil, ss, fs, plan, h => by
    rw [planLoop]
    exact h
  | .cons tok rest, ss, fs, plan, h => by
    rw [planLoop]
    exact planLoop_parents rest _ _ _
      (planScan_parents tok _ _ (planStep_parents tok ss fs plan h))

/-- The Plan Builder fallback never returns an empty plan. -/
lemma parse_sql_manually_ne_nil (toks : SqlToks) : parse_sql_manually toks ≠ [] := by
  rw [parse_sql_manually]
  split
  · simp
  · next h =>
    intro hc
    rw [hc] at h
    simp at h

/-- C6 counterexample: on the tokens of `SELECT * FROM t` (SELECT has the
DML ttype and never enters the Keyword branch) the fallback plan is one
single node whose parent equals its own id, so the claimed property that
every non-root parent references a strictly earlier id fails. -/
theorem C6_counterexample :
    parse_sql_manually selectFromTToks = [PlanNode.mk 0 0 "SCAN TABLE t"]
    ∧ planWellFormed (parse_sql_manually selectFromTToks) = false := by
  exact ⟨rfl, rfl⟩

/-- C6 amended: the fallback Plan Builder always returns a non-empty
sequence, and every emitted node's parent is either the root marker `-1`
or `0`; but a parent of `0` need not reference an earlier node: when no
SELECT root was emitted, a SCAN TABLE node can reference itself, as the
counterexample exhibits. -/
theorem C6_amended (toks : SqlToks) :
    parse_sql_manually toks ≠ []
    ∧ ∀ n ∈ parse_sql_manually toks, n.parent = -1 ∨ n.parent = 0 := by
  constructor
  · exact parse_sql_manually_ne_nil toks
  · intro n hn
    rw [parse_sql_manually] at hn
    split at hn
    · simp only [List.mem_cons, List.not_mem_nil, or_false] at hn
      rcases hn with rfl | rfl <;> simp
    · exact planLoop_parents toks false false [] (by simp) n hn

/-- Witness for C6 amended on the empty token sequence: its plan is the
two-node default, which is non-empty, and its second node's parent is
`-1` or `0`. -/
theorem C6_amended_witness :
    parse_sql_manually SqlToks.nil ≠ []
    ∧ ((PlanNode.mk 1 0 "EXECUTE SQL").parent = -1
        ∨ (PlanNode.mk 1 0 "EXECUTE SQL").parent = 0) :=
  ⟨(C6_amended SqlToks.nil).1,
    (C6_amended SqlToks.nil).2 (PlanNode.mk 1 0 "EXECUTE SQL") (by decide)⟩

/-- The error-suggestion generator never reads its `tables` and
`columns` arguments, so its result is independent of them. -/
lemma gen_sugg_args_ignored (msg : String) (t1 c1 t2 c2 : List String) :
    generate_suggestions_for_error msg t1 c1 = generate_suggestions_for_error msg t2 c2 := rfl

/-- C1: with a working connection, a non-blank single statement passing
the basic syntax check, all referenced tables present in the refreshed
catalog, and a successful explain probe, `validate` returns the Valid
outcome `(True, None, None)`. -/
theorem C1_validate_valid (be : Backend) (cat : Catalog) (q : String) (parsed : SqlToks)
    (hconn : be.connectOk = true)
    (hblank : isBlank q = false)
    (hsyn : basic_syntax_check q [parsed] = true)
    (htab : ∀ t ∈ extract_tables parsed, ((load_schema be cat).2.hasTable t) = true)
    (hexp : be.explain parsed = none) :
    (validate be cat q [parsed]).1 = ⟨true, none, none⟩ := by
  simp [validate, hconn, hblank, hsyn, hexp]

/-- Witness for C1 on `SELECT * FROM Student` against the catalog
holding `Student(Sno)`. -/
theorem C1_validate_valid_witness :
    (validate okBackend emptyCatalog "SELECT * FROM Student" [selectStudentToks]).1
      = ⟨true, none, none⟩ :=
  C1_validate_valid okBackend emptyCatalog "SELECT * FROM Student" selectStudentToks
    rfl (by rfl) (by rfl) (by decide) rfl

/-- C2 counterexample: `SELECT 1; SELECT (2` parses into two non-empty
statements, yet `validate` reports the generic syntax-error outcome,
because the whole-input parenthesis-balance check runs before the
multi-statement check; the multi-statement message is not produced. -/
theorem C2_counterexample :
    (validate okBackend emptyCatalog "SELECT 1; SELECT (2"
        [multiStmt1Toks, multiStmt2Toks]).1
      = ⟨false, some syntax_error_msg, some syntax_error_suggestions⟩
    ∧ (validate okBackend emptyCatalog "SELECT 1; SELECT (2"
        [multiStmt1Toks, multiStmt2Toks]).1.message ≠ some multi_statement_msg :=
  ⟨rfl, by decide⟩

/-- C2 amended: for inputs that parse into two or more statements and
also pass the basic syntax check (balanced parentheses, non-empty first
statement), `validate` returns the multi-statement Invalid outcome; when
the basic syntax check fails (for example, unbalanced parentheses inside
one of the statements) the generic syntax-error outcome is returned
instead. -/
theorem C2_amended (be : Backend) (cat : Catalog) (q : String) (stmts : List SqlToks)
    (hconn : be.connectOk = true)
    (hblank : isBlank q = false)
    (hsyn : basic_syntax_check q stmts = true)
    (hmulti : 2 ≤ stmts.length) :
    (validate be cat q stmts).1
      = ⟨false, some multi_statement_msg, some [multi_statement_suggestion]⟩ := by
  rcases stmts with _ | ⟨s1, stmts2⟩
  · simp at hmulti
  rcases stmts2 with _ | ⟨s2, rest⟩
  · simp at hmulti
  simp [validate, hconn, hblank, hsyn]

/-- Witness for C2 amended on `SELECT 1; SELECT 2`. -/
theorem C2_amended_witness :
    (validate okBackend emptyCatalog "SELECT 1; SELECT 2"
        [twoSelect1Toks, twoSelect2Toks]).1
      = ⟨false, some multi_statement_msg, some [multi_statement_suggestion]⟩ :=
  C2_amended okBackend emptyCatalog "SELECT 1; SELECT 2" [twoSelect1Toks, twoSelect2Toks]
    rfl (by rfl) (by rfl) (by decide)

/-- C3 counterexample: on the empty input with a working connection the
outcome carries one generic suggestion, not an empty suggestion list;
and with a failing connection the empty-input check is never reached
(the connection-failure outcome is returned), so the check is not the
first action before any backend interaction. -/
theorem C3_counterexample :
    (validate okBackend emptyCatalog "" []).1
      = ⟨false, some empty_query_msg, some [empty_query_suggestion]⟩
    ∧ (validate okBackend emptyCatalog "" []).1.suggestions ≠ some []
    ∧ (validate downBackend emptyCatalog "" []).1
      = ⟨false, some conn_failed_msg, some []⟩ :=
  ⟨rfl, by decide, rfl⟩

/-- C3 amended: for empty or whitespace-only input, provided the
database connection succeeds (the connection and the schema refresh run
first), `validate` returns the empty-query Invalid outcome carrying
exactly one generic suggestion. -/
theorem C3_amended (be : Backend) (cat : Catalog) (q : String) (stmts : List SqlToks)
    (hconn : be.connectOk = true) (hblank : isBlank q = true) :
    (validate be cat q stmts).1
      = ⟨false, some empty_query_msg, some [empty_query_suggestion]⟩ := by
  simp [validate, hconn, hblank]

/-- Witness for C3 amended on the empty string. -/
theorem C3_amended_witness :
    (validate okBackend emptyCatalog "" []).1
      = ⟨false, some empty_query_msg, some [empty_query_suggestion]⟩ :=
  C3_amended okBackend emptyCatalog "" [] rfl rfl

/-- C4 counterexample: with catalog {Student}, query `SELECT * FROM
Studnet` and backend message `no such table: Studnet`, the code's
suggestion list is exactly the two taxonomy strings; the spec's
combination with Fuzzy Suggestion Engine output seeded from the invalid
tables would contain `Student`, which the code's list does not. -/
theorem C4_counterexample :
    (validate rejectBackend emptyCatalog "SELECT * FROM Studnet" [selectStudnetToks]).1
      = ⟨false, some "no such table: Studnet",
          some ["检查表名是否正确拼写", "确保表已经创建"]⟩
    ∧ "Student" ∈ spec_backend_failure_suggestions "no such table: Studnet"
        ["Studnet"] ["Student"]
    ∧ "Student" ∉ ["检查表名是否正确拼写", "确保表已经创建"] := by
  refine ⟨by rfl, ?_, by decide⟩
  rw [spec_backend_failure_suggestions]
  apply List.mem_append_right
  simp only [List.mem_flatMap]
  refine ⟨"Studnet", by simp, ?_⟩
  rw [find_similar_names, List.mem_filter]
  refine ⟨by simp, ?_⟩
  rw [decide_eq_true_eq, studnet_student_sim, default_threshold]
  norm_num

/-- C4 amended: on explain-probe failure `validate` returns Invalid with
the backend's message verbatim, and its suggestions come from the
taxonomy classifier alone: the full reference list and an empty column
list are passed to it but ignored, so the Fuzzy Suggestion Engine and
the invalid-tables computation do not influence the result. -/
theorem C4_amended (be : Backend) (cat : Catalog) (q : String) (parsed : SqlToks) (err : String)
    (hconn : be.connectOk = true)
    (hblank : isBlank q = false)
    (hsyn : basic_syntax_check q [parsed] = true)
    (hexp : be.explain parsed = some err) :
    (validate be cat q [parsed]).1
      = ⟨false, some err, some (generate_suggestions_for_error err (extract_tables parsed) [])⟩
    ∧ generate_suggestions_for_error err (extract_tables parsed) []
      = generate_suggestions_for_error err [] [] := by
  constructor
  · simp [validate, hconn, hblank, hsyn, hexp]
  · exact gen_sugg_args_ignored err _ _ _ _

/-- Witness for C4 amended on the rejected `SELECT * FROM Studnet`. -/
theorem C4_amended_witness :
    (validate rejectBackend emptyCatalog "SELECT * FROM Studnet" [selectStudnetToks]).1
      = ⟨false, some "no such table: Studnet",
          some (generate_suggestions_for_error "no such table: Studnet"
            (extract_tables selectStudnetToks) [])⟩
    ∧ generate_suggestions_for_error "no such table: Studnet"
        (extract_tables selectStudnetToks) []
      = generate_suggestions_for_error "no such table: Studnet" [] [] :=
  C4_amended rejectBackend emptyCatalog "SELECT * FROM Studnet" selectStudnetToks
    "no such table: Studnet" rfl (by rfl) (by rfl) rfl

/-- C5 counterexample: refreshing the catalog `X(a)` against a backend
whose column query fails on table `B` fails, yet leaves the catalog
cleared and partially rebuilt: the previous content is lost. -/
theorem C5_counterexample :
    load_schema halfBackend oldCatalog
      = (false, ⟨[("A", ["c"]), ("B", [])], [("c", ["A"])]⟩)
    ∧ (load_schema halfBackend oldCatalog).2 ≠ oldCatalog :=
  ⟨rfl, by decide⟩

/-- C5 amended: the refresh leaves the catalog untouched when the
connection or the initial table-list query fails; only a failure inside
the per-table column loop, which runs after both maps were cleared, can
leave a partially rebuilt catalog (as the counterexample exhibits). -/
theorem C5_amended (be : Backend) (cat : Catalog)
    (h : be.connectOk = false ∨ be.listTables = none) :
    load_schema be cat = (false, cat) := by
  rcases h with h | h
  · simp [load_schema, h]
  · by_cases hc : be.connectOk <;> simp [load_schema, h, hc]

/-- Witness for C5 amended on the disconnected backend. -/
theorem C5_amended_witness :
    load_schema downBackend oldCatalog = (false, oldCatalog) :=
  C5_amended downBackend oldCatalog (Or.inl rfl)

/-- C10: the backend-rejection suggestion generator never returns an
empty list; when no taxonomy category matches the message by substring
it returns the fixed generic fallback list; and therefore the Invalid
outcome of the explain-probe failure path always carries at least one
suggestion. -/
theorem C10_suggestions_nonempty :
    (∀ (msg : String) (tables columns : List String),
      generate_suggestions_for_error msg tables columns ≠ [])
    ∧ (∀ (msg : String) (tables columns : List String),
      taxonomyMatches msg = false →
        generate_suggestions_for_error msg tables columns = generic_suggestions)
    ∧ (∀ (be : Backend) (cat : Catalog) (q : String) (parsed : SqlToks) (err : String),
      be.connectOk = true → isBlank q = false →
      basic_syntax_check q [parsed] = true → be.explain parsed = some err →
      ∃ l, (validate be cat q [parsed]).1.suggestions = some l ∧ l ≠ []) := by
  have hne : ∀ (msg : String) (tables columns : List String),
      generate_suggestions_for_error msg tables columns ≠ [] := by
    intro msg t c
    rw [generate_suggestions_for_error]
    split_ifs <;> simp [generic_suggestions]
  refine ⟨hne, ?_, ?_⟩
  · intro msg t c h
    rw [taxonomyMatches] at h
    simp only [Bool.or_eq_false_iff] at h
    obtain ⟨⟨⟨⟨h1, h2⟩, h3⟩, h4⟩, h5⟩ := h
    rw [generate_suggestions_for_error]
    simp [h1, h2, h3, h4, h5]
  · intro be cat q parsed err hconn hblank hsyn hexp
    refine ⟨generate_suggestions_for_error err (extract_tables parsed) [], ?_, hne _ _ _⟩
    simp [validate, hconn, hblank, hsyn, hexp]

/-- Witness for C10 on a message matching no taxonomy category and on
the rejected `SELECT * FROM Studnet`. -/
theorem C10_suggestions_nonempty_witness :
    generate_suggestions_for_error "weird failure" [] [] ≠ []
    ∧ generate_suggestions_for_error "weird failure" [] [] = generic_suggestions
    ∧ ∃ l, (validate rejectBackend emptyCatalog "SELECT * FROM Studnet"
        [selectStudnetToks]).1.suggestions = some l ∧ l ≠ [] :=
  ⟨C10_suggestions_nonempty.1 "weird failure" [] [],
   C10_suggestions_nonempty.2.1 "weird failure" [] [] (by rfl),
   C10_suggestions_nonempty.2.2 rejectBackend emptyCatalog "SELECT * FROM Studnet"
     selectStudnetToks "no such table: Studnet" rfl (by rfl) (by rfl) rfl⟩

end SqlWb
